import Mathlib

/-
Verification of the aux-kxc service (src/main.go): a small HTTP read-proxy
over an object-storage (S3) "list buckets" API and a parameter-store (SSM)
"describe parameters" / "get parameter" API, plus a liveness endpoint.

The embedding is shallow: each Go handler becomes a pure Lean function from
the outcome of its single remote call to the HTTP response it writes, a
handler-level panic (nil-pointer dereference) is modelled as `none`, and the
startup sequence of `main` becomes a function from the ambient environment
to an event trace plus a final startup result.
-/

set_option autoImplicit false

namespace AuxKxc

/-- JSON values, as produced by Go's encoding/json for the types this
service marshals (strings, string slices, and the response struct). -/
inductive Json : Type where
  | null : Json
  | str : String → Json
  | arr : List Json → Json
  | obj : List (String × Json) → Json

/-- Look up a field of a JSON object by key. -/
def Json.field : Json → String → Option Json
  | .obj fields, k => fields.lookup k
  | _, _ => none

/-- Errors returned by remote SDK calls. The handlers never inspect the
error, so the exact constructors only matter for "regardless of the kind
of error" statements. -/
inductive SdkError : Type where
  | notFound
  | accessDenied
  | throttled
  | other (msg : String)
  deriving Repr, DecidableEq

/-- The error message, as Go's err.Error() would render it. -/
def SdkError.message : SdkError → String
  | .notFound => "not found"
  | .accessDenied => "access denied"
  | .throttled => "throttled"
  | .other msg => msg

/-- Whether an SDK call succeeded. -/
def exceptIsOk {ε α : Type} : Except ε α → Bool
  | .ok _ => true
  | .error _ => false

/-- An S3 bucket as returned by ListBuckets; Name is a *string in the SDK,
so it is an `Option String` here (none models a nil pointer). -/
structure Bucket where
  name : Option String
  deriving Repr, DecidableEq

/-- SSM parameter metadata as returned by DescribeParameters; Name is a
*string in the SDK. -/
structure ParameterMetadata where
  name : Option String
  deriving Repr, DecidableEq

/-- An SSM parameter as returned by GetParameter; Value is a *string. -/
structure Parameter where
  value : Option String
  deriving Repr, DecidableEq

/-- The GetParameter output; the Parameter field is itself a pointer in
the SDK, so it is an `Option Parameter` here. -/
structure GetParameterOutput where
  parameter : Option Parameter
  deriving Repr, DecidableEq

/-- Go marshaling of the handlers' `names []string` slice. The handlers
declare `var names []string` (nil) and append one element per item, so the
slice is nil exactly when the item list was empty, and encoding/json
marshals a nil slice as `null` rather than `[]`. -/
def marshalGoStringSlice (names : List String) : Json :=
  if names.isEmpty then .null else .arr (names.map Json.str)

/-- The `response` struct of main.go, as marshalled by gin's c.JSON:
field order Version then Data, with json tags "version" and "data". -/
def envelope (version : String) (data : Json) : Json :=
  .obj [("version", .str version), ("data", data)]

/-- An HTTP response as written by a handler: a status code and an
optional JSON body (`none` is an empty body, from gin's c.Status). -/
structure HttpResponse where
  status : Nat
  body : Option Json

/-- The outbound remote calls a handler can issue. -/
inductive RemoteCall : Type where
  | listBuckets
  | describeParameters
  | getParameter (name : String)
  deriving Repr, DecidableEq

/-- What one invocation of a handler does: the outbound calls it issued,
and either the HTTP response it wrote or `none` when the handler body
panicked (nil-pointer dereference) before writing any response. -/
structure HandlerResult where
  calls : List RemoteCall
  outcome : Option HttpResponse

/-- listBucketsHandler of main.go: one ListBuckets call; on error a bare
500; on success collect each bucket's *Name in order (panicking on a nil
Name, modelled by mapM over Option) and reply 200 with the envelope. -/
def listBucketsHandler (version : String)
    (remote : Except SdkError (List Bucket)) : HandlerResult :=
  { calls := [.listBuckets]
    outcome :=
      match remote with
      | .error _ => some { status := 500, body := none }
      | .ok buckets =>
        (buckets.mapM Bucket.name).map fun names =>
          { status := 200
            body := some (envelope version (marshalGoStringSlice names)) } }

/-- listParametersHandler of main.go: one DescribeParameters call; same
shape as listBucketsHandler but over parameter metadata names. -/
def listParametersHandler (version : String)
    (remote : Except SdkError (List ParameterMetadata)) : HandlerResult :=
  { calls := [.describeParameters]
    outcome :=
      match remote with
      | .error _ => some { status := 500, body := none }
      | .ok params =>
        (params.mapM ParameterMetadata.name).map fun names =>
          { status := 200
            body := some (envelope version (marshalGoStringSlice names)) } }

/-- getParameterHandler of main.go: one GetParameter call with the path
name; any error becomes a bare 404; on success it dereferences
out.Parameter and then .Value (each a possible nil-pointer panic) and
replies 200 with the value as the envelope's data. -/
def getParameterHandler (version : String) (name : String)
    (remote : Except SdkError GetParameterOutput) : HandlerResult :=
  { calls := [.getParameter name]
    outcome :=
      match remote with
      | .error _ => some { status := 404, body := none }
      | .ok out =>
        (out.parameter.bind Parameter.value).map fun v =>
          { status := 200, body := some (envelope version (.str v)) } }

/-- livenessHandler of main.go: writes a bare 200 and issues no call. -/
def livenessHandler : HandlerResult :=
  { calls := [], outcome := some { status := 200, body := none } }

/-- The behaviour of the remote cloud backends at the moment of a request:
what each of the three operations the service uses would return. -/
structure Backend where
  listBuckets : Except SdkError (List Bucket)
  describeParameters : Except SdkError (List ParameterMetadata)
  getParameter : String → Except SdkError GetParameterOutput

/-- The four routes main.go registers on the gin router. -/
inductive Route : Type where
  | buckets
  | parameters
  | parameter (name : String)
  | livez
  deriving Repr, DecidableEq

/-- Dispatch of one GET request by the router built in main: each route
runs its handler against the backend's answer to that handler's one call. -/
def handleRequest (version : String) (backend : Backend) : Route → HandlerResult
  | .buckets => listBucketsHandler version backend.listBuckets
  | .parameters => listParametersHandler version backend.describeParameters
  | .parameter name => getParameterHandler version name (backend.getParameter name)
  | .livez => livenessHandler

/-- The resolved AWS SDK configuration (region etc.); its contents are
opaque to this service. -/
structure AwsConfig where
  region : String
  deriving Repr, DecidableEq

/-- The client bundle built by newAWSClients: the two service clients,
each constructed from the validated configuration. -/
structure awsClients where
  s3 : AwsConfig
  ssm : AwsConfig
  deriving Repr, DecidableEq

/-- The ambient process environment at startup: whether the VERSION
variable is set (envconfig treats an unset variable as the missing case
for a required key), what config.LoadDefaultConfig would return, and what
sts GetCallerIdentity would return. -/
structure Env where
  versionVar : Option String
  loadDefaultConfig : Except SdkError AwsConfig
  getCallerIdentity : Except SdkError String

/-- newAWSClients of main.go: load the default config (can fail), then
validate credentials with one GetCallerIdentity call (can fail), then
build the two clients from the config. -/
def newAWSClients (env : Env) : Except SdkError awsClients :=
  match env.loadDefaultConfig with
  | .error e => .error e
  | .ok cfg =>
    match env.getCallerIdentity with
    | .error e => .error e
    | .ok _ => .ok { s3 := cfg, ssm := cfg }

/-- The observable startup steps of main, in the order the code can
perform them. stsGetCallerIdentity is the first network activity;
bindAndServe is where the listening port is bound (r.Run). -/
inductive StartupEvent : Type where
  | processEnvConfig
  | loadAwsDefaultConfig
  | stsGetCallerIdentity
  | registerRoutes
  | bindAndServe
  deriving Repr, DecidableEq

/-- How startup ends: log.Fatal on a missing required env var, panic on a
failed AWS init, or serving with the built clients and the version. -/
inductive StartupResult : Type where
  | fatalExit
  | panicked (msg : String)
  | serving (clients : awsClients) (version : String)
  deriving Repr, DecidableEq

/-- Whether startup reached the serving phase. -/
def StartupResult.isServing : StartupResult → Bool
  | .serving _ _ => true
  | _ => false

/-- The full order of startup events when nothing fails. -/
def fullStartupOrder : List StartupEvent :=
  [.processEnvConfig, .loadAwsDefaultConfig, .stsGetCallerIdentity,
   .registerRoutes, .bindAndServe]

/-- The steps newAWSClients performs: it always loads the default config,
and reaches the GetCallerIdentity call only when that load succeeded. -/
def newAWSClientsTrace (env : Env) : List StartupEvent :=
  match env.loadDefaultConfig with
  | .error _ => [.loadAwsDefaultConfig]
  | .ok _ => [.loadAwsDefaultConfig, .stsGetCallerIdentity]

/-- main of main.go as a trace of the startup steps performed, paired with
the final startup result: envconfig.Process first (log.Fatal if VERSION is
missing), then newAWSClients (panic on error), then route registration and
r.Run. -/
def mainStartup (env : Env) : List StartupEvent × StartupResult :=
  match env.versionVar with
  | none => ([.processEnvConfig], .fatalExit)
  | some v =>
    match newAWSClients env with
    | .error e =>
      (.processEnvConfig :: newAWSClientsTrace env,
       .panicked ("AWS init failed: " ++ e.message))
    | .ok cl =>
      (.processEnvConfig :: newAWSClientsTrace env
        ++ [.registerRoutes, .bindAndServe],
       .serving cl v)

/-- A backend holding the demo data of the spec's testable properties:
buckets a and b, one parameter p, and parameter foo with value bar. -/
def demoBackend : Backend :=
  { listBuckets := .ok [{ name := some "a" }, { name := some "b" }]
    describeParameters := .ok [{ name := some "p" }]
    getParameter := fun n =>
      if n = "foo" then .ok { parameter := some { value := some "bar" } }
      else .error .notFound }

/-- A backend whose three operations all fail. -/
def errorBackend : Backend :=
  { listBuckets := .error .accessDenied
    describeParameters := .error .throttled
    getParameter := fun _ => .error (.other "boom") }

/-- A backend whose two list operations succeed with zero items. -/
def emptyBackend : Backend :=
  { listBuckets := .ok []
    describeParameters := .ok []
    getParameter := fun _ => .error .notFound }

/-- Evaluation of listBucketsHandler on a successful remote reply whose
bucket names are all present. -/
lemma listBucketsHandler_ok (version : String) (buckets : List Bucket)
    (names : List String) (h : buckets.mapM Bucket.name = some names) :
    listBucketsHandler version (Except.ok buckets) =
      { calls := [.listBuckets]
        outcome := some { status := 200, body := some (envelope version (marshalGoStringSlice names)) } } := by
  simp [listBucketsHandler]
  exact ⟨names, h, rfl⟩

/-- Evaluation of listParametersHandler on a successful remote reply whose
parameter names are all present. -/
lemma listParametersHandler_ok (version : String)
    (params : List ParameterMetadata) (names : List String)
    (h : params.mapM ParameterMetadata.name = some names) :
    listParametersHandler version (Except.ok params) =
      { calls := [.describeParameters]
        outcome := some { status := 200, body := some (envelope version (marshalGoStringSlice names)) } } := by
  simp [listParametersHandler]
  exact ⟨names, h, rfl⟩

/-- C1: when a list endpoint's remote call succeeds and every item name is
present, the handler replies 200 with the envelope whose data is the
marshalled sequence of item names, in the remote API's order; for a
nonempty sequence the data is literally the JSON array of the names in
that order. -/
theorem listEndpoints_success_names_in_order
    (version : String) (backend : Backend)
    (buckets : List Bucket) (params : List ParameterMetadata)
    (bnames pnames : List String)
    (hb : backend.listBuckets = Except.ok buckets)
    (hp : backend.describeParameters = Except.ok params)
    (hbn : buckets.mapM Bucket.name = some bnames)
    (hpn : params.mapM ParameterMetadata.name = some pnames) :
    handleRequest version backend .buckets =
      { calls := [.listBuckets],
        outcome := some { status := 200, body := some (envelope version (marshalGoStringSlice bnames)) } } ∧
    handleRequest version backend .parameters =
      { calls := [.describeParameters],
        outcome := some { status := 200, body := some (envelope version (marshalGoStringSlice pnames)) } } ∧
    (bnames ≠ [] → marshalGoStringSlice bnames = .arr (bnames.map Json.str)) ∧
    (pnames ≠ [] → marshalGoStringSlice pnames = .arr (pnames.map Json.str)) := by
  refine ⟨?_, ?_, ?_, ?_⟩
  · show listBucketsHandler version backend.listBuckets = _
    rw [hb, listBucketsHandler_ok version buckets bnames hbn]
  · show listParametersHandler version backend.describeParameters = _
    rw [hp, listParametersHandler_ok version params pnames hpn]
  · intro h; simp [marshalGoStringSlice, h]
  · intro h; simp [marshalGoStringSlice, h]

/-- Witness for C1: the demo backend returns buckets a and b, and the
response is 200 with data ["a", "b"] in that order. -/
theorem listEndpoints_success_names_in_order_witness :
    handleRequest "1.2.3" demoBackend .buckets =
      { calls := [.listBuckets],
        outcome := some { status := 200, body := some (envelope "1.2.3" (marshalGoStringSlice ["a", "b"])) } } ∧
    marshalGoStringSlice ["a", "b"] = .arr [.str "a", .str "b"] := by
  have h := listEndpoints_success_names_in_order "1.2.3" demoBackend
    [{ name := some "a" }, { name := some "b" }] [{ name := some "p" }]
    ["a", "b"] ["p"] rfl rfl rfl rfl
  exact ⟨h.1, h.2.2.1 (by simp)⟩

/-- C2: when the get-parameter remote call fails, the handler replies 404
with an empty body, whatever the kind of the remote error. -/
theorem getParameter_remote_error_404
    (version name : String) (backend : Backend) (e : SdkError)
    (h : backend.getParameter name = Except.error e) :
    handleRequest version backend (.parameter name) =
      { calls := [.getParameter name],
        outcome := some { status := 404, body := none } } := by
  simp [handleRequest, getParameterHandler, h]

/-- Witness for C2: on the demo backend, GET /parameters/missing yields a
404 with empty body. -/
theorem getParameter_remote_error_404_witness :
    handleRequest "1.2.3" demoBackend (.parameter "missing") =
      { calls := [.getParameter "missing"],
        outcome := some { status := 404, body := none } } :=
  getParameter_remote_error_404 "1.2.3" "missing" demoBackend .notFound (by simp [demoBackend])

/-- C6: when a list endpoint's remote call fails, the handler replies 500
with an empty body, whatever the remote error was. -/
theorem listEndpoints_remote_error_500
    (version : String) (backend : Backend) (e1 e2 : SdkError)
    (hb : backend.listBuckets = Except.error e1)
    (hp : backend.describeParameters = Except.error e2) :
    handleRequest version backend .buckets =
      { calls := [.listBuckets],
        outcome := some { status := 500, body := none } } ∧
    handleRequest version backend .parameters =
      { calls := [.describeParameters],
        outcome := some { status := 500, body := none } } := by
  constructor
  · simp [handleRequest, listBucketsHandler, hb]
  · simp [handleRequest, listParametersHandler, hp]

/-- Witness for C6: on the failing backend both list endpoints yield a 500
with empty body. -/
theorem listEndpoints_remote_error_500_witness :
    handleRequest "1.2.3" errorBackend .buckets =
      { calls := [.listBuckets],
        outcome := some { status := 500, body := none } } ∧
    handleRequest "1.2.3" errorBackend .parameters =
      { calls := [.describeParameters],
        outcome := some { status := 500, body := none } } :=
  listEndpoints_remote_error_500 "1.2.3" errorBackend .accessDenied .throttled rfl rfl

/-- C7: when the get-parameter remote call succeeds with a present value,
the handler replies 200 with the envelope whose data is that value as a
JSON string. -/
theorem getParameter_success_200_value
    (version name value : String) (backend : Backend)
    (out : GetParameterOutput) (p : Parameter)
    (h : backend.getParameter name = Except.ok out)
    (hp : out.parameter = some p)
    (hv : p.value = some value) :
    handleRequest version backend (.parameter name) =
      { calls := [.getParameter name],
        outcome := some { status := 200, body := some (envelope version (.str value)) } } := by
  simp [handleRequest, getParameterHandler, h, hp, hv]

/-- Witness for C7: on the demo backend, GET /parameters/foo yields 200
with data "bar". -/
theorem getParameter_success_200_value_witness :
    handleRequest "1.2.3" demoBackend (.parameter "foo") =
      { calls := [.getParameter "foo"],
        outcome := some { status := 200, body := some (envelope "1.2.3" (.str "bar")) } } :=
  getParameter_success_200_value "1.2.3" "foo" "bar" demoBackend
    { parameter := some { value := some "bar" } } { value := some "bar" }
    (by simp [demoBackend]) rfl rfl

/-- C9: when a list endpoint's remote call succeeds with zero items, the
handler replies 200 with the data field equal to JSON null (the nil
slice), which is distinct from the empty JSON array. -/
theorem listEndpoints_empty_data_null
    (version : String) (backend : Backend)
    (hb : backend.listBuckets = Except.ok [])
    (hp : backend.describeParameters = Except.ok []) :
    (handleRequest version backend .buckets).outcome =
      some { status := 200, body := some (.obj [("version", .str version), ("data", .null)]) } ∧
    (handleRequest version backend .parameters).outcome =
      some { status := 200, body := some (.obj [("version", .str version), ("data", .null)]) } ∧
    (Json.null ≠ Json.arr []) := by
  refine ⟨?_, ?_, fun h => Json.noConfusion h⟩
  · simp [handleRequest, listBucketsHandler, hb, List.mapM, List.mapM.loop,
      marshalGoStringSlice, envelope]
  · simp [handleRequest, listParametersHandler, hp, List.mapM, List.mapM.loop,
      marshalGoStringSlice, envelope]

/-- Witness for C9: on the backend with no buckets and no parameters both
list endpoints yield 200 with data null. -/
theorem listEndpoints_empty_data_null_witness :
    (handleRequest "1.2.3" emptyBackend .buckets).outcome =
      some { status := 200, body := some (.obj [("version", .str "1.2.3"), ("data", .null)]) } ∧
    (Json.null ≠ Json.arr []) := by
  have h := listEndpoints_empty_data_null "1.2.3" emptyBackend rfl rfl
  exact ⟨h.1, h.2.2⟩

/-- C5: every GET /livez request gets a bare 200 with empty body and
issues no outbound remote call, whatever the backend state is. -/
theorem livez_always_200_no_calls (version : String) (backend : Backend) :
    handleRequest version backend .livez =
      { calls := [], outcome := some { status := 200, body := none } } := rfl

/-- A backend whose successful responses carry nil pointer fields in each
of the three shapes the handlers dereference. -/
def nilFieldBackend : Backend :=
  { listBuckets := .ok [{ name := none }]
    describeParameters := .ok [{ name := none }]
    getParameter := fun _ => .ok { parameter := some { value := none } } }

/-- C10: for each of the three business handlers there is a successful
remote response with a nil field on which the handler panics (outcome
none) instead of producing an HTTP response. -/
theorem nil_field_success_panics :
    (handleRequest "v" nilFieldBackend .buckets).outcome = none ∧
    (handleRequest "v" nilFieldBackend .parameters).outcome = none ∧
    (handleRequest "v" nilFieldBackend (.parameter "x")).outcome = none :=
  ⟨rfl, rfl, rfl⟩

/-- Every JSON body a handler writes on a success path is the envelope of
the version it was given, so its version field is that string verbatim. -/
lemma success_body_version_field (version : String) (backend : Backend)
    (route : Route) (resp : HttpResponse) (body : Json)
    (hr : (handleRequest version backend route).outcome = some resp)
    (hb : resp.body = some body) :
    body.field "version" = some (.str version) := by
  have henv : ∀ d : Json, (envelope version d).field "version" = some (.str version) := by
    intro d
    simp [envelope, Json.field]
  cases route with
  | buckets =>
    rcases h : backend.listBuckets with e | buckets
    · simp [handleRequest, listBucketsHandler, h] at hr
      simp [← hr] at hb
    · simp [handleRequest, listBucketsHandler, h] at hr
      obtain ⟨names, hnames, hresp⟩ := hr
      rw [← hresp] at hb
      simp at hb
      rw [← hb]
      exact henv _
  | parameters =>
    rcases h : backend.describeParameters with e | params
    · simp [handleRequest, listParametersHandler, h] at hr
      simp [← hr] at hb
    · simp [handleRequest, listParametersHandler, h] at hr
      obtain ⟨names, hnames, hresp⟩ := hr
      rw [← hresp] at hb
      simp at hb
      rw [← hb]
      exact henv _
  | parameter name =>
    rcases h : backend.getParameter name with e | out
    · simp [handleRequest, getParameterHandler, h] at hr
      simp [← hr] at hb
    · rcases hop : out.parameter with _ | p
      · simp [handleRequest, getParameterHandler, h, hop] at hr
      · rcases hpv : p.value with _ | v
        · simp [handleRequest, getParameterHandler, h, hop, hpv] at hr
        · simp [handleRequest, getParameterHandler, h, hop, hpv] at hr
          rw [← hr] at hb
          simp at hb
          rw [← hb]
          exact henv _
  | livez =>
    simp [handleRequest, livenessHandler] at hr
    simp [← hr] at hb

/-- C4: when startup reached the serving phase with version v, the VERSION
environment variable was exactly v, and every JSON body produced by any
request handler on any backend carries the field version = v verbatim, the
same v for every request served by the process. -/
theorem version_field_verbatim
    (env : Env) (events : List StartupEvent) (cl : awsClients) (v : String)
    (hs : mainStartup env = (events, .serving cl v))
    (backend : Backend) (route : Route) (resp : HttpResponse) (body : Json)
    (hr : (handleRequest v backend route).outcome = some resp)
    (hb : resp.body = some body) :
    env.versionVar = some v ∧ body.field "version" = some (.str v) := by
  refine ⟨?_, success_body_version_field v backend route resp body hr hb⟩
  obtain ⟨ver, lc, ci⟩ := env
  cases ver with
  | none => simp [mainStartup] at hs
  | some w =>
    cases lc with
    | error e1 => simp [mainStartup, newAWSClients, newAWSClientsTrace] at hs
    | ok cfg =>
      cases ci with
      | error e2 => simp [mainStartup, newAWSClients, newAWSClientsTrace] at hs
      | ok arn =>
        simp [mainStartup, newAWSClients, newAWSClientsTrace] at hs
        rw [hs.2.2]

/-- An environment on which startup reaches the serving phase. -/
def servingEnv : Env :=
  { versionVar := some "1.2.3"
    loadDefaultConfig := .ok { region := "eu-west-1" }
    getCallerIdentity := .ok "arn:aws:iam::123456789012:user/demo" }

/-- Witness for C4: on the serving environment and the demo backend, the
body of GET /parameters/foo carries version 1.2.3, the configured value. -/
theorem version_field_verbatim_witness :
    servingEnv.versionVar = some "1.2.3" ∧
    (envelope "1.2.3" (.str "bar")).field "version" = some (.str "1.2.3") :=
  version_field_verbatim servingEnv fullStartupOrder
    { s3 := { region := "eu-west-1" }, ssm := { region := "eu-west-1" } } "1.2.3"
    rfl demoBackend (.parameter "foo")
    { status := 200, body := some (envelope "1.2.3" (.str "bar")) }
    (envelope "1.2.3" (.str "bar"))
    (by simp [handleRequest, getParameterHandler, demoBackend]) rfl

/-- An environment where the VERSION variable is present and the identity
check would succeed, but loading the default SDK configuration fails. -/
def c3Env : Env :=
  { versionVar := some "1.0"
    loadDefaultConfig := .error (.other "invalid shared config")
    getCallerIdentity := .ok "arn:aws:iam::123456789012:user/demo" }

/-- Counterexample to C3 as stated: in c3Env the version variable is
present and GetCallerIdentity succeeds, yet startup does not reach the
serving phase, because config.LoadDefaultConfig failing is a third
condition that aborts startup. -/
theorem startup_iff_two_conditions_counterexample :
    c3Env.versionVar.isSome = true ∧
    exceptIsOk c3Env.getCallerIdentity = true ∧
    (mainStartup c3Env).2.isServing = false :=
  ⟨rfl, rfl, rfl⟩

/-- C3 amended: startup reaches the serving phase iff the version variable
is present, the default SDK configuration load succeeds, and the identity
check succeeds. -/
theorem startup_serving_iff (env : Env) :
    (mainStartup env).2.isServing = true ↔
      env.versionVar.isSome = true ∧
      exceptIsOk env.loadDefaultConfig = true ∧
      exceptIsOk env.getCallerIdentity = true := by
  obtain ⟨ver, lc, ci⟩ := env
  cases ver <;> cases lc <;> cases ci <;>
    simp [mainStartup, newAWSClients, newAWSClientsTrace,
      StartupResult.isServing, exceptIsOk]

/-- C8: when the VERSION variable is missing, main performs only the
envconfig step and exits fatally, before any network activity and before
binding the port; and on every environment the startup steps happen as a
prefix of the fixed order: env config first, then the SDK config load,
then the GetCallerIdentity network call, then route registration and the
port bind. -/
theorem missing_version_fatal_before_network
    (env : Env) (h : env.versionVar = none) :
    mainStartup env = ([.processEnvConfig], .fatalExit) ∧
    (∀ envAny : Env, ∃ n : Nat, (mainStartup envAny).1 = fullStartupOrder.take n) := by
  constructor
  · obtain ⟨ver, lc, ci⟩ := env
    cases ver with
    | none => rfl
    | some w => simp at h
  · intro e
    obtain ⟨ver, lc, ci⟩ := e
    cases ver with
    | none => exact ⟨1, rfl⟩
    | some w =>
      cases lc with
      | error e1 => exact ⟨2, rfl⟩
      | ok cfg =>
        cases ci with
        | error e2 => exact ⟨3, rfl⟩
        | ok arn => exact ⟨5, rfl⟩

/-- An environment with the VERSION variable unset. -/
def noVersionEnv : Env :=
  { versionVar := none
    loadDefaultConfig := .ok { region := "eu-west-1" }
    getCallerIdentity := .ok "arn:aws:iam::123456789012:user/demo" }

/-- Witness for C8: with VERSION unset, startup performs only the
envconfig step and exits fatally. -/
theorem missing_version_fatal_before_network_witness :
    mainStartup noVersionEnv = ([.processEnvConfig], .fatalExit) :=
  (missing_version_fatal_before_network noVersionEnv rfl).1

end AuxKxc
